import Mathlib

/-!
Shallow embedding of the anti-api credential/routing core.

Source files embedded here:
* `src/services/antigravity/login.ts` — the Antigravity OAuth session manager
  (`startAntigravityOAuthSession`, `pollAntigravityOAuthSession`,
  `cancelAntigravityOAuthSession`, `completeOAuthCallbackLogin`).
* `src/routes/auth/route.ts` — the auth router's method/path table, the removed
  credential-bundle endpoints and the `/login` provider dispatch.
* The routing model catalog and routing-config composition, whose implementation
  files are not part of the excerpt; they are modelled from the specification and
  checked against the repository's tests.

Machine integers do not occur: all timestamps are epoch milliseconds, modelled
as `Nat`. Network calls (`exchangeCode`, `fetchUserInfo`, `getProjectID`,
`listCopilotModelsForAccount`) are opaque collaborators, modelled as function
fields of an environment record returning `Except String _` (an `Except.error`
is a thrown exception).
-/

namespace AntiApi

/-- JavaScript truthiness of an optional string: `undefined` and `""` are falsy.
The TypeScript source tests option-typed strings with bare `if (x)` in several
places; this helper mirrors that. -/
def jsTruthy : Option String → Bool
  | none => false
  | some s => s ≠ ""

/-- JavaScript `String.prototype.toLowerCase` restricted to the character-wise
lowering relevant here, defined on the character list so that it evaluates by
kernel reduction. -/
def toLowerCase (s : String) : String := String.mk (s.data.map Char.toLower)

/-- Whitespace recognizer of JavaScript `String.prototype.trim` (the
characters that occur in this codebase's data). -/
def isSpaceChar (c : Char) : Bool := c == ' ' || c == '\t' || c == '\n' || c == '\r'

/-- JavaScript `String.prototype.trim`, defined on the character list. -/
def trimString (s : String) : String :=
  String.mk (((s.data.dropWhile isSpaceChar).reverse.dropWhile isSpaceChar).reverse)

/-- Payload delivered by the OAuth callback listener
(`OAuthCallbackResult` in `login.ts`). -/
structure OAuthCallbackResult where
  code : Option String := none
  state : Option String := none
  error : Option String := none
deriving Repr, DecidableEq

/-- One in-flight Antigravity OAuth attempt (`AntigravityOAuthSession` in
`login.ts`). The `server` handle of the source carries no observable data
beyond its teardown, which is modelled by dropping the session. -/
structure AntigravityOAuthSession where
  state : String
  authUrl : String
  redirectUri : String
  expiresAt : Nat
  callback : Option OAuthCallbackResult := none
deriving Repr, DecidableEq

/-- Token response of `exchangeCode` (`expiresIn` in seconds). -/
structure TokenResponse where
  accessToken : String
  refreshToken : String
  expiresIn : Nat
deriving Repr, DecidableEq

/-- User identity returned by `fetchUserInfo`. -/
structure UserInfo where
  email : String
deriving Repr, DecidableEq

/-- Provider-specific collaborators consumed by the completion protocol,
left opaque by the source (`./oauth` imports in `login.ts`). -/
structure OAuthEnv where
  exchangeCode : String → String → Except String TokenResponse
  fetchUserInfo : String → Except String UserInfo
  getProjectID : String → Except String (Option String)

/-- Modelled from the spec: `generateMockProjectId` lives in
`src/services/antigravity/project-id.ts`, which is not part of the excerpt.
The spec requires a deterministic placeholder project identifier synthesized
when the provider returns none. -/
def generateMockProjectId : String := "antigravity-mock-project"

/-- The global auth fields written by a successful completion
(`state.*` assignments in `completeOAuthCallbackLogin` plus `saveAuth`). -/
structure AuthStateWrite where
  accessToken : String
  antigravityToken : String
  refreshToken : String
  tokenExpiresAt : Nat
  userEmail : String
  userName : String
  cloudaicompanionProject : String
deriving Repr, DecidableEq

/-- Return shape of `completeOAuthCallbackLogin`. -/
structure LoginResult where
  success : Bool
  error : Option String := none
  email : Option String := none
deriving Repr, DecidableEq

/-- The token-exchange tail of the completion protocol
(`login.ts` lines 103-123): exchange the code, fetch the identity, resolve the
project id with the mock fallback, and produce the auth-state write. -/
def exchangeAndPersist (env : OAuthEnv) (now : Nat) (callbackResult : OAuthCallbackResult)
    (redirectUri : String) : Except String (LoginResult × Option AuthStateWrite) :=
  match env.exchangeCode (callbackResult.code.getD "") redirectUri with
  | .error e => .error e
  | .ok tokens =>
    match env.fetchUserInfo tokens.accessToken with
    | .error e => .error e
    | .ok userInfo =>
      match env.getProjectID tokens.accessToken with
      | .error e => .error e
      | .ok projectId =>
        let resolvedProjectId :=
          if jsTruthy projectId then projectId.getD "" else generateMockProjectId
        .ok ({ success := true, email := some userInfo.email },
          some {
            accessToken := tokens.accessToken
            antigravityToken := tokens.accessToken
            refreshToken := tokens.refreshToken
            tokenExpiresAt := now + tokens.expiresIn * 1000
            userEmail := userInfo.email
            userName := (userInfo.email.splitOn "@").headD ""
            cloudaicompanionProject := resolvedProjectId })

/-- `completeOAuthCallbackLogin` (`login.ts` lines 86-124): guard chain over the
callback payload, then the token-exchange tail. -/
def completeOAuthCallbackLogin (env : OAuthEnv) (now : Nat)
    (callbackResult : OAuthCallbackResult) (oauthState : String)
    (redirectUri : String) : Except String (LoginResult × Option AuthStateWrite) :=
  if jsTruthy callbackResult.error then
    .ok ({ success := false, error := callbackResult.error }, none)
  else if !jsTruthy callbackResult.code || !jsTruthy callbackResult.state then
    .ok ({ success := false, error := some "Missing code or state in callback" }, none)
  else if callbackResult.state ≠ some oauthState then
    .ok ({ success := false, error := some "State mismatch - possible CSRF attack" }, none)
  else
    exchangeAndPersist env now callbackResult redirectUri

/-- Module-level mutable state of `login.ts`: the active session slot and, for
the listener bookkeeping the spec reasons about, the multiset of completion
listeners that have been registered (each remembers the `oauthState` it
captured). -/
structure OAuthWorld where
  active : Option AntigravityOAuthSession := none
  listeners : List String := []
deriving Repr, DecidableEq

/-- Descriptor returned by `startAntigravityOAuthSession`. -/
structure StartResult where
  state : String
  authUrl : String
  redirectUri : String
  expiresAt : Nat
deriving Repr, DecidableEq

/-- The four descriptor fields of a session, as `start` returns them. -/
def sessionDescriptor (s : AntigravityOAuthSession) : StartResult :=
  { state := s.state, authUrl := s.authUrl, redirectUri := s.redirectUri,
    expiresAt := s.expiresAt }

/-- `stopAntigravityOAuthSession` (`login.ts` lines 78-84): stop the callback
server and clear the active slot. -/
def stopAntigravityOAuthSession (w : OAuthWorld) : OAuthWorld :=
  { w with active := none }

/-- Session TTL: 5 minutes in milliseconds (`5 * 60 * 1000` in `login.ts`). -/
def SESSION_TTL_MS : Nat := 5 * 60 * 1000

/-- Fresh-session branch of `startAntigravityOAuthSession` (`login.ts` lines
141-171): tear down any stale session, allocate a listener, store the new
session and return its descriptor. `freshState`, `redirectUri` and `authUrl`
stand for the values produced by `generateState`, the environment override /
listener port, and `generateAuthURL`. -/
def startFreshAntigravitySession (now : Nat) (freshState redirectUri authUrl : String)
    (w : OAuthWorld) : StartResult × OAuthWorld :=
  let session : AntigravityOAuthSession :=
    { state := freshState, authUrl := authUrl, redirectUri := redirectUri,
      expiresAt := now + SESSION_TTL_MS, callback := none }
  (sessionDescriptor session,
    { active := some session, listeners := w.listeners ++ [freshState] })

/-- `startAntigravityOAuthSession` (`login.ts` lines 126-172): return the
active session's descriptor unchanged while it is unexpired, otherwise start a
fresh session. -/
def startAntigravityOAuthSession (now : Nat) (freshState redirectUri authUrl : String)
    (w : OAuthWorld) : StartResult × OAuthWorld :=
  match w.active with
  | some s =>
    if now < s.expiresAt then (sessionDescriptor s, w)
    else startFreshAntigravitySession now freshState redirectUri authUrl w
  | none => startFreshAntigravitySession now freshState redirectUri authUrl w

/-- Delivery of a callback result by a completion listener that captured
`capturedState` (`login.ts` lines 156-164): the result is stored only when the
currently active session's state equals the captured state. -/
def deliverOAuthCallback (capturedState : String) (result : OAuthCallbackResult)
    (w : OAuthWorld) : OAuthWorld :=
  match w.active with
  | none => w
  | some s =>
    if s.state ≠ capturedState then w
    else { w with active := some { s with callback := some result } }

/-- Poll outcome status. -/
inductive PollStatus
  | pending
  | success
  | error
deriving Repr, DecidableEq

/-- Return shape of `pollAntigravityOAuthSession`. -/
structure PollResult where
  status : PollStatus
  message : Option String := none
  email : Option String := none
deriving Repr, DecidableEq

/-- `pollAntigravityOAuthSession` (`login.ts` lines 174-204). -/
def pollAntigravityOAuthSession (env : OAuthEnv) (now : Nat) (oauthState : String)
    (w : OAuthWorld) : PollResult × OAuthWorld :=
  match w.active with
  | none =>
    ({ status := .error, message := some "No active Antigravity OAuth session" }, w)
  | some session =>
    if session.state ≠ oauthState then
      ({ status := .error, message := some "No active Antigravity OAuth session" }, w)
    else if session.expiresAt < now then
      ({ status := .error, message := some "Authentication timeout (5 minutes)" },
        stopAntigravityOAuthSession w)
    else
      match session.callback with
      | none => ({ status := .pending }, w)
      | some cb =>
        match completeOAuthCallbackLogin env now cb session.state session.redirectUri with
        | .ok (r, _) =>
          if r.success then
            ({ status := .success, email := r.email }, stopAntigravityOAuthSession w)
          else
            ({ status := .error,
               message := some (if jsTruthy r.error then r.error.getD ""
                 else "Antigravity authentication failed") },
              stopAntigravityOAuthSession w)
        | .error msg =>
          ({ status := .error, message := some msg }, stopAntigravityOAuthSession w)

/-- `cancelAntigravityOAuthSession` (`login.ts` lines 206-211). The optional
`oauthState` argument is tested with JavaScript truthiness. -/
def cancelAntigravityOAuthSession (oauthState : Option String) (w : OAuthWorld) :
    Bool × OAuthWorld :=
  match w.active with
  | none => (false, w)
  | some s =>
    if jsTruthy oauthState ∧ s.state ≠ oauthState.getD "" then (false, w)
    else (true, stopAntigravityOAuthSession w)

/-! ### Auth router (`src/routes/auth/route.ts`) -/

/-- HTTP methods relevant to the router. -/
inductive Method
  | GET
  | POST
  | PUT
  | DELETE
deriving Repr, DecidableEq, BEq

/-- Handlers registered on `authRouter` in `route.ts`, one constructor per
registration, in source order. -/
inductive AuthRouteHandler
  | statusH
  | accountsH
  | exportRemoved
  | importRemoved
  | loginH
  | copilotStatus
  | codexStatus
  | codexOauthStatus
  | codexOauthCancel
  | codexCancel
  | antigravityOauthStatus
  | antigravityOauthCancel
  | codexDebug
  | logoutH
deriving Repr, DecidableEq, BEq

/-- The method/path registration table of `authRouter` (`route.ts`): every
`authRouter.get`/`authRouter.post` call, in source order. -/
def authRoutes : List (Method × String × AuthRouteHandler) :=
  [ (.GET, "/status", .statusH),
    (.GET, "/accounts", .accountsH),
    (.GET, "/export", .exportRemoved),
    (.POST, "/import", .importRemoved),
    (.POST, "/login", .loginH),
    (.GET, "/copilot/status", .copilotStatus),
    (.GET, "/codex/status", .codexStatus),
    (.GET, "/codex/oauth/status", .codexOauthStatus),
    (.POST, "/codex/oauth/cancel", .codexOauthCancel),
    (.POST, "/codex/cancel", .codexCancel),
    (.GET, "/antigravity/oauth/status", .antigravityOauthStatus),
    (.POST, "/antigravity/oauth/cancel", .antigravityOauthCancel),
    (.GET, "/codex/debug", .codexDebug),
    (.POST, "/logout", .logoutH) ]

/-- Router dispatch: the first registration matching the method and the path,
as Hono resolves routes. -/
def matchAuthRoute (m : Method) (path : String) : Option AuthRouteHandler :=
  (authRoutes.find? (fun r => r.1 == m && r.2.1 == path)).map (fun r => r.2.2)

/-- Observable response of a request, refined only for the removed
credential-bundle handlers; every other matched handler is kept abstract and an
unmatched request falls through to the framework's 404. -/
inductive AuthResponse
  | removed (httpStatus : Nat) (success : Bool) (error : String)
  | notFound
  | handledBy (h : AuthRouteHandler)
deriving Repr, DecidableEq

/-- Handler bodies for the removed endpoints (`route.ts` lines 66-74): both
ignore the request payload and answer 410 with the fixed JSON body. -/
def runAuthHandler (h : AuthRouteHandler) (_payload : String) : AuthResponse :=
  match h with
  | .exportRemoved =>
    .removed 410 false "Credential bundle export/import has been removed."
  | .importRemoved =>
    .removed 410 false "Credential bundle export/import has been removed."
  | h => .handledBy h

/-- Modelled from the spec: the server entry (`src/server.ts`) that mounts the
routers is not part of the excerpt. The spec requires the removed export/import
handlers to be reachable on a generic bundle path as well as on the auth path,
and the repository's tests exercise `GET /bundle/export`, `POST /bundle/import`,
`GET /auth/export` and `POST /auth/import`; the bundle mount therefore mirrors
the auth router's method/path registrations. -/
def serverDispatch (m : Method) (path : String) : Option AuthRouteHandler :=
  if path = "/bundle/export" ∨ path = "/bundle/import" then
    matchAuthRoute m (path.drop 7)
  else if path.take 6 = "/auth/" then
    matchAuthRoute m (path.drop 5)
  else none

/-- A full request against the server: dispatch, run the handler, or 404. -/
def serverRequest (m : Method) (path : String) (payload : String) : AuthResponse :=
  match serverDispatch m path with
  | some h => runAuthHandler h payload
  | none => .notFound

/-! ### `/auth/login` provider dispatch (`route.ts` lines 77-206) -/

/-- Parsed JSON body of a `/login` request (absent fields are `none`;
`force` holds whether `body.force === true`). -/
structure LoginRequestBody where
  accessToken : Option String := none
  refreshToken : Option String := none
  email : Option String := none
  name : Option String := none
  provider : Option String := none
  force : Bool := false
deriving Repr, DecidableEq

/-- The action the `/login` handler takes, one constructor per terminal branch
of the handler. -/
inductive LoginAction
  | copilotImportOrDeviceFlow
  | codexInteractive
  | codexImport
  | antigravityInteractive
  | antigravityOAuthLogin
  | antigravitySetAuth
deriving Repr, DecidableEq

/-- `(body.provider || "antigravity").toLowerCase()` from the handler. -/
def effectiveProvider (provider : Option String) : String :=
  toLowerCase (if jsTruthy provider then provider.getD "" else "antigravity")

/-- Branch selection of the `/login` handler (`route.ts` lines 90-202). -/
def loginDispatch (body : LoginRequestBody) : LoginAction :=
  let provider := effectiveProvider body.provider
  if provider = "copilot" then .copilotImportOrDeviceFlow
  else if provider = "codex" then
    if body.force then .codexInteractive else .codexImport
  else if body.force then .antigravityInteractive
  else if !jsTruthy body.accessToken then .antigravityOAuthLogin
  else .antigravitySetAuth

/-- Whether an action belongs to the default Antigravity branch. -/
def isAntigravityAction : LoginAction → Bool
  | .antigravityInteractive => true
  | .antigravityOAuthLogin => true
  | .antigravitySetAuth => true
  | _ => false

/-! ### Model catalog (modelled from the spec) -/

/-- A visible model entry. -/
structure ModelDescriptor where
  id : String
  label : String
deriving Repr, DecidableEq

/-- Modelled from the spec: the static copilot baseline list of
`src/services/routing/models.ts` is not part of the excerpt; the repository's
tests require it to contain the ids `gpt-4o` and `claude-opus-4-5-thinking`. -/
def staticCopilotModels : List ModelDescriptor :=
  [ { id := "gpt-4o", label := "Copilot - GPT-4o" },
    { id := "claude-opus-4-5-thinking", label := "Copilot - Claude Opus 4.5 Thinking" } ]

/-- Modelled from the spec: sanitization of a dynamic model list — trim `id`
and `label`, drop entries whose trimmed `id` is empty. -/
def sanitizeModels (models : List ModelDescriptor) : List ModelDescriptor :=
  (models.map (fun m => { id := trimString m.id, label := trimString m.label })).filter
    (fun m => m.id ≠ "")

/-- Modelled from the spec: deduplicate by `id`, keeping the first
occurrence's label. -/
def dedupeModelsById (models : List ModelDescriptor) : List ModelDescriptor :=
  models.foldl (fun acc m => if acc.any (fun x => x.id == m.id) then acc else acc ++ [m]) []

/-- Modelled from the spec: merge rule producing the visible catalog — the
sanitized, deduplicated dynamic list, then every static entry whose `id` is not
already present. -/
def mergeModels (dynamicModels staticModels : List ModelDescriptor) : List ModelDescriptor :=
  let sanitized := dedupeModelsById (sanitizeModels dynamicModels)
  sanitized ++ staticModels.filter (fun s => !sanitized.any (fun d => d.id == s.id))

/-- Modelled from the spec: `getProviderModels("copilot")` of
`src/services/routing/models.ts` — the current dynamic copilot list merged onto
the static baseline. -/
def getProviderModels (dynamicCopilotModels : List ModelDescriptor) : List ModelDescriptor :=
  mergeModels dynamicCopilotModels staticCopilotModels

/-! ### Routing-config composition (modelled from the spec) -/

/-- An account as the auth store lists it, in insertion order. -/
structure ProviderAccount where
  id : String
  accessToken : String
  createdAt : Nat
deriving Repr, DecidableEq

/-- Collaborator fetching the remote model list for one account
(`listCopilotModelsForAccount`); an `Except.error` is a thrown exception. -/
structure CopilotModelsEnv where
  listCopilotModelsForAccount : ProviderAccount → Except String (List ModelDescriptor)

/-- Observable outcome of `GET /routing/config` for the copilot provider:
which accounts a refresh was attempted with, and the visible catalog. -/
structure RoutingConfigResult where
  refreshAttempts : List String
  copilotModels : List ModelDescriptor
deriving Repr, DecidableEq

/-- Modelled from the spec: the copilot part of `getConfig()` in
`src/routes/routing/route.ts`, which is not part of the excerpt. For the
provider, one dynamic refresh is attempted with the first account in insertion
order (skipped when no account exists); a refresh failure is caught and leaves
the previous dynamic list in place. -/
def getRoutingConfig (env : CopilotModelsEnv) (copilotAccounts : List ProviderAccount)
    (dynamicCopilotModels : List ModelDescriptor) : RoutingConfigResult :=
  match copilotAccounts with
  | [] =>
    { refreshAttempts := [], copilotModels := getProviderModels dynamicCopilotModels }
  | a :: _ =>
    match env.listCopilotModelsForAccount a with
    | .ok remote =>
      { refreshAttempts := [a.id], copilotModels := getProviderModels remote }
    | .error _ =>
      { refreshAttempts := [a.id], copilotModels := getProviderModels dynamicCopilotModels }

/-! ### Concrete fixtures used by witnesses and counterexamples -/

/-- An environment in which every network collaborator fails. -/
def noNetworkEnv : OAuthEnv :=
  { exchangeCode := fun _ _ => .error "network unavailable"
    fetchUserInfo := fun _ => .error "network unavailable"
    getProjectID := fun _ => .error "network unavailable" }

/-- An environment in which the exchange and the identity fetch succeed but the
provider returns no project identifier. -/
def happyNoProjectEnv : OAuthEnv :=
  { exchangeCode := fun _ _ =>
      .ok { accessToken := "atok", refreshToken := "rtok", expiresIn := 3600 }
    fetchUserInfo := fun _ => .ok { email := "user@example.com" }
    getProjectID := fun _ => .ok none }

/-- A concrete session fixture. -/
def sampleSession : AntigravityOAuthSession :=
  { state := "abc", authUrl := "https://auth.example/start",
    redirectUri := "http://localhost:51121/oauth-callback",
    expiresAt := 300000, callback := none }

/-- A copilot model environment whose remote fetch always throws. -/
def failingCopilotEnv : CopilotModelsEnv :=
  { listCopilotModelsForAccount := fun _ => .error "sync failed" }

/-! ## Theorems -/

/-- Claim C1, counterexample: the claim quantifies over every method, but the
router registers the removed export endpoint for GET only; a POST request to
`/auth/export` matches no route and falls through to the framework's 404
instead of the 410 response. -/
theorem removed_bundle_endpoints_counterexample :
    serverRequest .POST "/auth/export" "{}" = .notFound ∧
    serverRequest .POST "/auth/export" "{}"
      ≠ .removed 410 false "Credential bundle export/import has been removed." := by
  exact ⟨rfl, by decide⟩

/-- Claim C1 (amended): for every GET request to `/bundle/export` or
`/auth/export` and every POST request to `/bundle/import` or `/auth/import`,
regardless of payload, the server responds 410 with exactly
`{success:false, error:"Credential bundle export/import has been removed."}`;
the handlers are registered only for those methods, so e.g. a POST to
`/auth/export` is not served by them. -/
theorem removed_bundle_endpoints :
    ∀ payload : String,
      serverRequest .GET "/bundle/export" payload
        = .removed 410 false "Credential bundle export/import has been removed." ∧
      serverRequest .POST "/bundle/import" payload
        = .removed 410 false "Credential bundle export/import has been removed." ∧
      serverRequest .GET "/auth/export" payload
        = .removed 410 false "Credential bundle export/import has been removed." ∧
      serverRequest .POST "/auth/import" payload
        = .removed 410 false "Credential bundle export/import has been removed." ∧
      serverRequest .POST "/auth/export" payload = .notFound := by
  intro payload
  exact ⟨rfl, rfl, rfl, rfl, rfl⟩

/-- Claim C10: a `/auth/login` body whose provider field, after the
`(body.provider || "antigravity").toLowerCase()` normalization, is neither
`"copilot"` nor `"codex"` (including an absent or empty field and arbitrary
unknown names) is handled by one of the Antigravity branches; no
unknown-provider error branch exists. -/
theorem login_unknown_provider_defaults_to_antigravity :
    ∀ body : LoginRequestBody,
      (∀ s, body.provider = some s → toLowerCase s ≠ "copilot" ∧ toLowerCase s ≠ "codex") →
      isAntigravityAction (loginDispatch body) = true := by
  intro body h
  have hp : effectiveProvider body.provider ≠ "copilot" ∧
      effectiveProvider body.provider ≠ "codex" := by
    cases hb : body.provider with
    | none => exact ⟨by decide, by decide⟩
    | some s =>
      by_cases hs : s = ""
      · subst hs
        exact ⟨by decide, by decide⟩
      · have hlow := h s hb
        simpa [effectiveProvider, jsTruthy, hs] using hlow
  simp only [loginDispatch]
  rw [if_neg hp.1, if_neg hp.2]
  by_cases hf : body.force
  · simp [hf, isAntigravityAction]
  · by_cases ha : jsTruthy body.accessToken
    · simp [hf, ha, isAntigravityAction]
    · simp [hf, ha, isAntigravityAction]

/-- Witness for C10 at the concrete unknown provider name `"Gemini"`. -/
theorem login_unknown_provider_defaults_to_antigravity_witness :
    isAntigravityAction (loginDispatch { provider := some "Gemini" }) = true :=
  login_unknown_provider_defaults_to_antigravity { provider := some "Gemini" }
    (fun s hs => by
      injection hs with h
      subst h
      exact ⟨by decide, by decide⟩)

/-- Claim C7: the visible copilot catalog is the sanitize/dedupe/append merge;
with an empty dynamic list it is exactly the static baseline (which contains
`gpt-4o`), and the claim's concrete merge example yields exactly one entry
`{id := "x", label := "A"}`. -/
theorem copilot_catalog_merge :
    (∀ staticModels : List ModelDescriptor, mergeModels [] staticModels = staticModels) ∧
    getProviderModels [] = staticCopilotModels ∧
    ((getProviderModels []).any (fun m => m.id == "gpt-4o") = true) ∧
    ((getProviderModels
        [ { id := " x ", label := " A " }, { id := "x", label := "B" },
          { id := "", label := "C" } ]).filter (fun m => m.id == "x")
      = [ { id := "x", label := "A" } ]) := by
  refine ⟨?_, by decide, by decide, by decide⟩
  intro staticModels
  simp [mergeModels, sanitizeModels, dedupeModelsById]

/-- Claim C8: one `getRoutingConfig` call performs at most one copilot refresh
attempt, uses the first account in insertion order, skips the refresh when no
copilot account exists, and a refresh failure leaves the previous dynamic list
in place (so a first-ever failure yields the static catalog) instead of
raising. -/
theorem routing_config_single_refresh :
    ∀ (env : CopilotModelsEnv) (accounts : List ProviderAccount)
      (dyn : List ModelDescriptor),
      (getRoutingConfig env accounts dyn).refreshAttempts.length ≤ 1 ∧
      (accounts = [] → getRoutingConfig env accounts dyn
          = { refreshAttempts := [], copilotModels := getProviderModels dyn }) ∧
      (∀ a rest, accounts = a :: rest →
        (getRoutingConfig env accounts dyn).refreshAttempts = [a.id]) ∧
      (∀ a rest e, accounts = a :: rest →
        env.listCopilotModelsForAccount a = .error e →
        getRoutingConfig env accounts dyn
          = { refreshAttempts := [a.id], copilotModels := getProviderModels dyn }) := by
  intro env accounts dyn
  refine ⟨?_, ?_, ?_, ?_⟩
  · cases accounts with
    | nil => simp [getRoutingConfig]
    | cons a rest =>
      cases h : env.listCopilotModelsForAccount a <;> simp [getRoutingConfig, h]
  · intro h
    subst h
    rfl
  · intro a rest h
    subst h
    cases h2 : env.listCopilotModelsForAccount a <;> simp [getRoutingConfig, h2]
  · intro a rest e h h2
    subst h
    simp [getRoutingConfig, h2]

/-- Witness for C8: the failing-refresh scenario of the repository's test suite
(one account, the refresh throws) keeps the static catalog and records exactly
one attempt. -/
theorem routing_config_single_refresh_witness :
    getRoutingConfig failingCopilotEnv
        [ { id := "copilot-1", accessToken := "token-copilot-1", createdAt := 0 } ] []
      = { refreshAttempts := ["copilot-1"], copilotModels := staticCopilotModels } := by
  have h := (routing_config_single_refresh failingCopilotEnv
      [ { id := "copilot-1", accessToken := "token-copilot-1", createdAt := 0 } ] []).2.2.2
    { id := "copilot-1", accessToken := "token-copilot-1", createdAt := 0 } [] "sync failed"
    rfl rfl
  rw [h]
  decide

/-- Claim C2, counterexample: at a callback with no upstream error and no
code, the completion protocol answers with the exact message
`"Missing code or state in callback"`, which is not the message with a
trailing period that the claim states. -/
theorem completion_missing_message_counterexample :
    completeOAuthCallbackLogin noNetworkEnv 0
        { code := none, state := some "s", error := none } "s" "http://localhost/cb"
      = .ok ({ success := false,
               error := some "Missing code or state in callback", email := none }, none) ∧
    (some "Missing code or state in callback" : Option String)
      ≠ some "Missing code or state in callback." := by
  exact ⟨rfl, by decide⟩

/-- Claim C2 (amended): the callback checks apply in this order — a truthy
upstream error fails with that error message; a missing (or empty) code or
state fails with exactly `"Missing code or state in callback"` (no trailing
period); a state differing from the session's fails with exactly
`"State mismatch - possible CSRF attack"`; only otherwise does the
token-exchange tail run. -/
theorem completion_guard_order :
    ∀ (env : OAuthEnv) (now : Nat) (cb : OAuthCallbackResult) (st ru : String),
      (jsTruthy cb.error = true →
        completeOAuthCallbackLogin env now cb st ru
          = .ok ({ success := false, error := cb.error, email := none }, none)) ∧
      (jsTruthy cb.error = false →
        (jsTruthy cb.code = false ∨ jsTruthy cb.state = false) →
        completeOAuthCallbackLogin env now cb st ru
          = .ok ({ success := false,
                   error := some "Missing code or state in callback", email := none },
              none)) ∧
      (jsTruthy cb.error = false → jsTruthy cb.code = true → jsTruthy cb.state = true →
        cb.state ≠ some st →
        completeOAuthCallbackLogin env now cb st ru
          = .ok ({ success := false,
                   error := some "State mismatch - possible CSRF attack", email := none },
              none)) ∧
      (jsTruthy cb.error = false → jsTruthy cb.code = true → cb.state = some st →
        st ≠ "" →
        completeOAuthCallbackLogin env now cb st ru = exchangeAndPersist env now cb ru) := by
  intro env now cb st ru
  refine ⟨?_, ?_, ?_, ?_⟩
  · intro he
    simp [completeOAuthCallbackLogin, he]
  · intro he hcs
    rcases hcs with h | h <;> simp [completeOAuthCallbackLogin, he, h]
  · intro he hc hs hne
    simp [completeOAuthCallbackLogin, he, hc, hs, hne]
  · intro he hc hstate hne
    have hs : jsTruthy (some st) = true := by simpa [jsTruthy] using hne
    simp [completeOAuthCallbackLogin, he, hc, hs, hstate]

/-- Witness for C2 at a concrete mismatching callback state. -/
theorem completion_guard_order_witness :
    completeOAuthCallbackLogin noNetworkEnv 0
        { code := some "c", state := some "t", error := none } "s" "http://localhost/cb"
      = .ok ({ success := false,
               error := some "State mismatch - possible CSRF attack", email := none },
          none) :=
  (completion_guard_order noNetworkEnv 0
      { code := some "c", state := some "t", error := none } "s" "http://localhost/cb").2.2.1
    (by decide) (by decide) (by decide) (by decide)

/-- Claim C9: when the token exchange and the user-info fetch succeed and the
provider returns no project identifier (absent or empty), the completion
succeeds with the user's email and persists the deterministic placeholder
`generateMockProjectId` as the project identifier. -/
theorem completion_mock_project_fallback :
    ∀ (env : OAuthEnv) (now : Nat) (c st ru : String)
      (tokens : TokenResponse) (ui : UserInfo) (pid : Option String),
      c ≠ "" → st ≠ "" →
      env.exchangeCode c ru = .ok tokens →
      env.fetchUserInfo tokens.accessToken = .ok ui →
      env.getProjectID tokens.accessToken = .ok pid →
      jsTruthy pid = false →
      completeOAuthCallbackLogin env now
          { code := some c, state := some st, error := none } st ru
        = .ok ({ success := true, error := none, email := some ui.email },
            some { accessToken := tokens.accessToken
                   antigravityToken := tokens.accessToken
                   refreshToken := tokens.refreshToken
                   tokenExpiresAt := now + tokens.expiresIn * 1000
                   userEmail := ui.email
                   userName := (ui.email.splitOn "@").headD ""
                   cloudaicompanionProject := generateMockProjectId }) := by
  intro env now c st ru tokens ui pid hc hst hex hui hpid hfalsy
  have hcT : jsTruthy (some c) = true := by simpa [jsTruthy] using hc
  have hsT : jsTruthy (some st) = true := by simpa [jsTruthy] using hst
  have hnone : jsTruthy none = false := rfl
  simp [completeOAuthCallbackLogin, hcT, hsT, hnone, hc, hst, exchangeAndPersist, hex, hui,
    hpid, hfalsy]

/-- Witness for C9: the concrete no-project environment. -/
theorem completion_mock_project_fallback_witness :
    completeOAuthCallbackLogin happyNoProjectEnv 0
        { code := some "c", state := some "s", error := none } "s" "http://localhost/cb"
      = .ok ({ success := true, error := none, email := some "user@example.com" },
          some { accessToken := "atok"
                 antigravityToken := "atok"
                 refreshToken := "rtok"
                 tokenExpiresAt := 0 + 3600 * 1000
                 userEmail := "user@example.com"
                 userName := ("user@example.com".splitOn "@").headD ""
                 cloudaicompanionProject := generateMockProjectId }) :=
  completion_mock_project_fallback happyNoProjectEnv 0 "c" "s" "http://localhost/cb"
    { accessToken := "atok", refreshToken := "rtok", expiresIn := 3600 }
    { email := "user@example.com" } none (by decide) (by decide) rfl rfl rfl rfl

/-- Claim C5: a poll whose state matches no active session (none, or a session
with a different state) answers the fixed no-active-session error and leaves
the world unchanged; a matching poll past `expiresAt` answers the fixed
timeout error and tears the session down. -/
theorem poll_no_session_and_timeout :
    ∀ (env : OAuthEnv) (now : Nat) (st : String) (w : OAuthWorld),
      ((∀ s, w.active = some s → s.state ≠ st) →
        pollAntigravityOAuthSession env now st w
          = ({ status := .error, message := some "No active Antigravity OAuth session",
               email := none }, w)) ∧
      (∀ s, w.active = some s → s.state = st → s.expiresAt < now →
        pollAntigravityOAuthSession env now st w
          = ({ status := .error, message := some "Authentication timeout (5 minutes)",
               email := none }, { w with active := none })) := by
  intro env now st w
  constructor
  · intro h
    cases ha : w.active with
    | none => simp [pollAntigravityOAuthSession, ha]
    | some s =>
      have hs := h s ha
      simp [pollAntigravityOAuthSession, ha, hs]
  · intro s ha hst hexp
    simp [pollAntigravityOAuthSession, ha, hst, hexp, stopAntigravityOAuthSession]

/-- Witness for C5: a mismatching poll, then an expired matching poll, against
the concrete sample session. -/
theorem poll_no_session_and_timeout_witness :
    pollAntigravityOAuthSession noNetworkEnv 1000 "zzz"
        { active := some sampleSession, listeners := ["abc"] }
      = ({ status := .error, message := some "No active Antigravity OAuth session",
           email := none }, { active := some sampleSession, listeners := ["abc"] }) ∧
    pollAntigravityOAuthSession noNetworkEnv 300001 "abc"
        { active := some sampleSession, listeners := ["abc"] }
      = ({ status := .error, message := some "Authentication timeout (5 minutes)",
           email := none }, { active := none, listeners := ["abc"] }) := by
  constructor
  · exact (poll_no_session_and_timeout noNetworkEnv 1000 "zzz"
      { active := some sampleSession, listeners := ["abc"] }).1
      (fun s hs => by injection hs with h; subst h; decide)
  · exact (poll_no_session_and_timeout noNetworkEnv 300001 "abc"
      { active := some sampleSession, listeners := ["abc"] }).2
      sampleSession rfl rfl (by decide)

/-- Claim C6, counterexample: cancelling with the supplied state token `""`,
which does not match the active session's state `"abc"`, nevertheless tears
the session down and returns true, because the source tests the optional
argument with JavaScript truthiness. -/
theorem cancel_empty_state_counterexample :
    "" ≠ sampleSession.state ∧
    cancelAntigravityOAuthSession (some "")
        { active := some sampleSession, listeners := ["abc"] }
      = (true, { active := none, listeners := ["abc"] }) := by
  decide

/-- Claim C6 (amended): `cancel` never throws; it returns false when no active
session exists; it returns false and leaves the session active when a
non-empty state token is supplied that does not match; and it tears the
session down and returns true when the supplied state matches, when no state
is supplied, or when the supplied state is the empty string (which the source
treats like an absent argument). -/
theorem cancel_session_behaviour :
    ∀ (st : Option String) (w : OAuthWorld),
      (w.active = none → cancelAntigravityOAuthSession st w = (false, w)) ∧
      (∀ s t, w.active = some s → st = some t → t ≠ "" → t ≠ s.state →
        cancelAntigravityOAuthSession st w = (false, w)) ∧
      (∀ s, w.active = some s → (st = none ∨ st = some s.state ∨ st = some "") →
        cancelAntigravityOAuthSession st w = (true, { w with active := none })) := by
  intro st w
  refine ⟨?_, ?_, ?_⟩
  · intro h
    simp [cancelAntigravityOAuthSession, h]
  · intro s t ha hst hne hmis
    have htr : jsTruthy st = true := by simpa [hst, jsTruthy] using hne
    simp only [cancelAntigravityOAuthSession, ha, hst, Option.getD_some]
    rw [if_pos ⟨by simpa [jsTruthy] using hne, Ne.symm hmis⟩]
  · intro s ha hcase
    rcases hcase with h | h | h <;>
      simp [cancelAntigravityOAuthSession, ha, h, jsTruthy, stopAntigravityOAuthSession]

/-- Witness for C6 at a concrete non-empty mismatching token. -/
theorem cancel_session_behaviour_witness :
    cancelAntigravityOAuthSession (some "other")
        { active := some sampleSession, listeners := ["abc"] }
      = (false, { active := some sampleSession, listeners := ["abc"] }) :=
  (cancel_session_behaviour (some "other")
      { active := some sampleSession, listeners := ["abc"] }).2.1
    sampleSession "other" rfl rfl (by decide) (by decide)

/-- Helper: `start` always returns the descriptor of the session that is
active afterwards. -/
theorem start_resolves_active (now : Nat) (freshState redirectUri authUrl : String)
    (w : OAuthWorld) :
    ∃ s, (startAntigravityOAuthSession now freshState redirectUri authUrl w).2.active
        = some s ∧
      (startAntigravityOAuthSession now freshState redirectUri authUrl w).1
        = sessionDescriptor s := by
  cases ha : w.active with
  | none =>
    exact ⟨{ state := freshState, authUrl := authUrl, redirectUri := redirectUri,
             expiresAt := now + SESSION_TTL_MS, callback := none },
      by simp [startAntigravityOAuthSession, ha, startFreshAntigravitySession],
      by simp [startAntigravityOAuthSession, ha, startFreshAntigravitySession]⟩
  | some s =>
    by_cases hnow : now < s.expiresAt
    · exact ⟨s, by simp [startAntigravityOAuthSession, ha, hnow],
        by simp [startAntigravityOAuthSession, ha, hnow]⟩
    · exact ⟨{ state := freshState, authUrl := authUrl, redirectUri := redirectUri,
               expiresAt := now + SESSION_TTL_MS, callback := none },
        by simp [startAntigravityOAuthSession, ha, hnow, startFreshAntigravitySession],
        by simp [startAntigravityOAuthSession, ha, hnow, startFreshAntigravitySession]⟩

/-- Claim C4: starting again while the session returned by a previous start is
still unexpired returns exactly the same `{state, authUrl, redirectUri,
expiresAt}` descriptor and leaves the whole world — active session and
registered listeners — unchanged. -/
theorem start_idempotent_until_expiry :
    ∀ (now1 now2 : Nat) (f1 ru1 au1 f2 ru2 au2 : String) (w0 : OAuthWorld)
      (r1 : StartResult) (w1 : OAuthWorld),
      startAntigravityOAuthSession now1 f1 ru1 au1 w0 = (r1, w1) →
      now2 < r1.expiresAt →
      startAntigravityOAuthSession now2 f2 ru2 au2 w1 = (r1, w1) := by
  intro now1 now2 f1 ru1 au1 f2 ru2 au2 w0 r1 w1 h1 hlt
  obtain ⟨s, hact, hdesc⟩ := start_resolves_active now1 f1 ru1 au1 w0
  rw [h1] at hact hdesc
  have hact1 : w1.active = some s := hact
  have hdesc1 : r1 = sessionDescriptor s := hdesc
  rw [hdesc1] at hlt
  have hexp : now2 < s.expiresAt := by simpa [sessionDescriptor] using hlt
  simp [startAntigravityOAuthSession, hact1, hexp, hdesc1]

/-- Witness for C4: a second start 1 second after a fresh first start. -/
theorem start_idempotent_until_expiry_witness :
    startAntigravityOAuthSession 1000 "s2" "ru2" "au2"
        { active := some { state := "s1", authUrl := "au1", redirectUri := "ru1",
                           expiresAt := 300000, callback := none },
          listeners := ["s1"] }
      = ({ state := "s1", authUrl := "au1", redirectUri := "ru1", expiresAt := 300000 },
         { active := some { state := "s1", authUrl := "au1", redirectUri := "ru1",
                            expiresAt := 300000, callback := none },
           listeners := ["s1"] }) :=
  start_idempotent_until_expiry 0 1000 "s1" "ru1" "au1" "s2" "ru2" "au2"
    { active := none, listeners := [] }
    { state := "s1", authUrl := "au1", redirectUri := "ru1", expiresAt := 300000 }
    { active := some { state := "s1", authUrl := "au1", redirectUri := "ru1",
                       expiresAt := 300000, callback := none },
      listeners := ["s1"] }
    (by decide) (by decide)

/-- Claim C3: when a second start supersedes an expired first session, a
callback delivered by a listener whose captured state is not the new active
session's state leaves the world unchanged, and polling the new session's
correct state afterwards still reports pending. -/
theorem stale_callback_ignored :
    ∀ (env : OAuthEnv) (now1 now2 now3 : Nat) (f1 ru1 au1 f2 ru2 au2 : String)
      (w0 : OAuthWorld) (r1 : StartResult) (w1 : OAuthWorld) (r2 : StartResult)
      (w2 : OAuthWorld) (capturedState : String) (result : OAuthCallbackResult),
      startAntigravityOAuthSession now1 f1 ru1 au1 w0 = (r1, w1) →
      startAntigravityOAuthSession now2 f2 ru2 au2 w1 = (r2, w2) →
      ¬ now2 < r1.expiresAt →
      capturedState ≠ f2 →
      ¬ r2.expiresAt < now3 →
      deliverOAuthCallback capturedState result w2 = w2 ∧
      pollAntigravityOAuthSession env now3 f2 w2
        = ({ status := .pending, message := none, email := none }, w2) := by
  intro env now1 now2 now3 f1 ru1 au1 f2 ru2 au2 w0 r1 w1 r2 w2 cs result h1 h2 hsup hcs
    hexp
  obtain ⟨s1, hact1, hdesc1⟩ := start_resolves_active now1 f1 ru1 au1 w0
  rw [h1] at hact1 hdesc1
  have hact1a : w1.active = some s1 := hact1
  have hdesc1a : r1 = sessionDescriptor s1 := hdesc1
  rw [hdesc1a] at hsup
  have hstale : ¬ now2 < s1.expiresAt := by simpa [sessionDescriptor] using hsup
  have h2' : startFreshAntigravitySession now2 f2 ru2 au2 w1 = (r2, w2) := by
    rw [← h2]
    simp [startAntigravityOAuthSession, hact1a, hstale]
  simp only [startFreshAntigravitySession] at h2'
  injection h2' with hr2 hw2
  subst hr2
  subst hw2
  have hnotexp : ¬ now2 + SESSION_TTL_MS < now3 := by
    simpa [sessionDescriptor] using hexp
  constructor
  · simp [deliverOAuthCallback, Ne.symm hcs]
  · simp [pollAntigravityOAuthSession, hnotexp]

/-- Witness for C3: first session expired at the second start, stale listener
state `"s1"`, fresh state `"s2"`. -/
theorem stale_callback_ignored_witness :
    deliverOAuthCallback "s1" { code := some "c", state := some "s1", error := none }
        { active := some { state := "s2", authUrl := "au2", redirectUri := "ru2",
                           expiresAt := 600000, callback := none },
          listeners := ["s1", "s2"] }
      = { active := some { state := "s2", authUrl := "au2", redirectUri := "ru2",
                           expiresAt := 600000, callback := none },
          listeners := ["s1", "s2"] } ∧
    pollAntigravityOAuthSession noNetworkEnv 300500 "s2"
        { active := some { state := "s2", authUrl := "au2", redirectUri := "ru2",
                           expiresAt := 600000, callback := none },
          listeners := ["s1", "s2"] }
      = ({ status := .pending, message := none, email := none },
         { active := some { state := "s2", authUrl := "au2", redirectUri := "ru2",
                            expiresAt := 600000, callback := none },
           listeners := ["s1", "s2"] }) :=
  stale_callback_ignored noNetworkEnv 0 300000 300500 "s1" "ru1" "au1" "s2" "ru2" "au2"
    { active := none, listeners := [] }
    { state := "s1", authUrl := "au1", redirectUri := "ru1", expiresAt := 300000 }
    { active := some { state := "s1", authUrl := "au1", redirectUri := "ru1",
                       expiresAt := 300000, callback := none },
      listeners := ["s1"] }
    { state := "s2", authUrl := "au2", redirectUri := "ru2", expiresAt := 600000 }
    { active := some { state := "s2", authUrl := "au2", redirectUri := "ru2",
                       expiresAt := 600000, callback := none },
      listeners := ["s1", "s2"] }
    "s1" { code := some "c", state := some "s1", error := none }
    (by decide) (by decide) (by decide) (by decide) (by decide)

end AntiApi
